import Mathlib

/-!
Shallow embedding of the python-observer repository (Observer design pattern).

The repository contains two near-identical modules:
  * `src/observer/observer.py` (the packaged module), and
  * `src/observer.py` (a root-level copy),
both defining an `Observer` base class and an `Observable` class with
`attach`, `detach` and `notify`.

Python-semantics notes baked into the embedding:
  * The code targets Python 2 style (`__metaclass__ = ABCMeta`,
    `super(Cls, self)`); under that reading `isinstance(x, Observer)` consults
    `Observer.__subclasshook__`.
  * `Observable._observers` is a Python `set`; we model it as a duplicate-free
    `List Nat` of object identities (set iteration order is unspecified, so
    claims are stated up to permutation where order matters).
  * Exceptions are modelled with `Except` / `Option` error values.
-/

/-- Minimal universe of Python values needed by the embedded code: booleans,
integers, strings and (tuples/lists collapsed to) lists. -/
inductive PyVal where
  | bool (b : Bool)
  | int (i : Int)
  | str (s : String)
  | list (l : List PyVal)

mutual
/-- Python `==` on the modelled values. `bool` is an `int` subtype in Python,
so `True == 1`; values of unrelated types compare unequal. -/
def pyEq : PyVal → PyVal → Bool
  | .bool a, .bool b => a == b
  | .bool a, .int b => (if a then (1 : Int) else 0) == b
  | .int a, .bool b => a == (if b then (1 : Int) else 0)
  | .int a, .int b => a == b
  | .str a, .str b => a == b
  | .list a, .list b => pyEqList a b
  | _, _ => false

/-- Python `==` on lists: elementwise, same length. -/
def pyEqList : List PyVal → List PyVal → Bool
  | [], [] => true
  | x :: xs, y :: ys => pyEq x y && pyEqList xs ys
  | _, _ => false
end

/-- Python `!=`, the negation of `==`. -/
def pyNe (a b : PyVal) : Bool := !(pyEq a b)

/-- Python truthiness of an optional string argument defaulted to `None`:
`None` and the empty string are falsy (`name if name else ...`). -/
def pyTruthy : Option String → Bool
  | none => false
  | some s => s ≠ ""

/-- A Python class as seen by the capability check in
`Observer.__subclasshook__`: the attribute-name keys of the `__dict__` of each
class along its method resolution order (`sub_class.__mro__`). -/
structure PyClass where
  mroDicts : List (List String)
deriving DecidableEq, Repr

/-- A Python object: its identity (`id(x)`, which is what `set` membership of
observers uses via default hashing/equality) and its class (`type(x)`). -/
structure PyObject where
  id : Nat
  cls : PyClass
deriving DecidableEq, Repr

/-- The string `cls.update.__str__()` evaluates to in the hook: the repr of the
(unbound) `Observer.update` method object. Its exact text is what CPython 2
prints; what matters below is only that it is not an attribute-name key of any
class `__dict__` (attribute names are identifiers and never contain `<`). -/
def updateRepr : String := "<unbound method Observer.update>"

/-- `Observer.__subclasshook__` from `src/observer/observer.py` (identical in
`src/observer.py`):
`return any(cls.update.__str__() in klazz.__dict__ for klazz in sub_class.__mro__) != []`.
The `any(...)` is a `bool`, compared with `!=` against the empty list. -/
def subclasshook (sub : PyClass) : Bool :=
  pyNe (.bool (sub.mroDicts.any fun d => d.contains updateRepr)) (.list [])

/-- `isinstance(x, Observer)` under the Python-2 reading (ABCMeta metaclass):
the instance check defers to `__subclasshook__` applied to `type(x)`. -/
def isinstanceObserver (x : PyObject) : Bool := subclasshook x.cls

/-- Digit character for `d < 10`, as produced by Python `str(int)`. -/
def digitChar (d : Nat) : Char := Char.ofNat (48 + d)

/-- The decimal digit list of a natural number, most significant first:
`str(n)` for a nonnegative Python int. -/
def decDigits (n : Nat) : List Char :=
  if _h : n < 10 then [digitChar n]
  else decDigits (n / 10) ++ [digitChar (n % 10)]
decreasing_by
  exact Nat.div_lt_self (by omega) (by omega)

/-- Python `str(n)` for a nonnegative int `n`. -/
def pyStr (n : Nat) : String := String.mk (decDigits n)

/-- `Observer.__init__` of the packaged module `src/observer/observer.py`:
given the current class-level counter `Observer._object_counter`, the concrete
class name and the optional `name` argument, it returns the instance's `name`
and the new counter (`self.name = name if name else
self.__class__.__name__ + str(Observer._object_counter)` followed by
`Observer._object_counter += 1`). -/
def observerInit (name : Option String) (clsName : String) (counter : Nat) :
    String × Nat :=
  ((if pyTruthy name then name.getD "" else clsName ++ pyStr counter),
   counter + 1)

/-- `Observer.object_counter` property of the packaged module: returns the
class attribute `Observer._object_counter`. -/
def object_counter (counter : Nat) : Nat := counter

/-- `Observer.__init__` of the root module `src/observer.py`: no counter;
`self.name = name if name else self.__class__.__name__`. -/
def rootObserverInit (name : Option String) (clsName : String) : String :=
  if pyTruthy name then name.getD "" else clsName

/-- A construction trace for the packaged module: fold `observerInit` over a
list of `(name argument, concrete class name)` pairs, threading the
process-wide counter; returns the final counter and the assigned names. -/
def constructAll (counter : Nat) : List (Option String × String) → Nat × List String
  | [] => (counter, [])
  | (nm, cls) :: rest =>
    let r := observerInit nm cls counter
    let f := constructAll r.2 rest
    (f.1, r.1 :: f.2)

/-- The same construction trace for the root module `src/observer.py` (which
has no counter): just the assigned names. -/
def rootConstructAll (l : List (Option String × String)) : List String :=
  l.map fun p => rootObserverInit p.1 p.2

/-- `Observable` state: the `name` attribute and the `_observers` set, modelled
as a list of object identities (duplicate-free whenever it was built by
`attach` from an empty registry). -/
structure Observable where
  name : String
  observers : List Nat
deriving DecidableEq, Repr

/-- `Observable.__init__`: `self.name = name if name else
self.__class__.__name__; self._observers = set()`. -/
def observableInit (name : Option String) (clsName : String) : Observable :=
  { name := if pyTruthy name then name.getD "" else clsName, observers := [] }

/-- Python `set.add` on the registry model: no effect when the element is
already present, otherwise the element joins the set. -/
def setAdd (s : List Nat) (a : Nat) : List Nat :=
  if a ∈ s then s else s ++ [a]

/-- `Observable.attach`:
`if not isinstance(observer, Observer): raise ValueError(...)` then
`self._observers.add(observer)`. The raised `ValueError` is the `.error`
branch. -/
def attach (o : Observable) (x : PyObject) : Except String Observable :=
  if !(isinstanceObserver x) then
    .error "You need to pass a valid Observer class object"
  else
    .ok { o with observers := setAdd o.observers x.id }

/-- `Observable.detach`:
`if observer in self._observers: self._observers.discard(observer)`.
Total — no exception can escape. -/
def detach (o : Observable) (x : PyObject) : Observable :=
  if x.id ∈ o.observers then
    { o with observers := o.observers.erase x.id }
  else o

/-- The `for observer in self._observers: observer.update(new_state)` loop of
`Observable.notify`. `upd` gives each observer's `update` behaviour on the
payload: `none` for normal return, `some e` for a raised exception `e`
(`update` receives the whole tuple `new_state` as its single argument and
cannot touch the observable, which is the claims' no-reentrancy proviso).
Returns the delivery events `(observer, payload)` actually performed, in
iteration order, and the first uncaught exception if any; an exception stops
the iteration and propagates. -/
def notifyLoop (upd : Nat → List PyVal → Option String) (v : List PyVal) :
    List Nat → List (Nat × List PyVal) × Option String
  | [] => ([], none)
  | x :: rest =>
    match upd x v with
    | some e => ([(x, v)], some e)
    | none =>
      let r := notifyLoop upd v rest
      ((x, v) :: r.1, r.2)

/-- `Observable.notify(*new_state)`: runs the loop over the current registry;
the observable's own state is not assigned anywhere in the body. -/
def notify (upd : Nat → List PyVal → Option String) (o : Observable)
    (v : List PyVal) : Observable × List (Nat × List PyVal) × Option String :=
  (o, notifyLoop upd v o.observers)

/-- An `update` implementation that never raises, for claims about the
exception-free path. -/
def noRaise : Nat → List PyVal → Option String := fun _ _ => none

/-! ## Helper lemmas -/

/-- The capability check compares a `bool` against the empty list with `!=`,
so it evaluates to `True` for every class. -/
theorem subclasshook_eq_true (sub : PyClass) : subclasshook sub = true := by
  unfold subclasshook pyNe
  cases h : (sub.mroDicts.any fun d => d.contains updateRepr) <;> simp [pyEq]

theorem isinstanceObserver_eq_true (x : PyObject) : isinstanceObserver x = true :=
  subclasshook_eq_true x.cls

theorem attach_eq_ok (o : Observable) (x : PyObject) :
    attach o x = .ok { o with observers := setAdd o.observers x.id } := by
  simp [attach, isinstanceObserver_eq_true]

theorem setAdd_nodup {s : List Nat} (h : s.Nodup) (a : Nat) :
    (setAdd s a).Nodup := by
  unfold setAdd
  split
  · exact h
  · next hmem => simpa [List.nodup_append] using ⟨h, hmem⟩

theorem mem_setAdd (s : List Nat) (a b : Nat) :
    b ∈ setAdd s a ↔ b ∈ s ∨ b = a := by
  unfold setAdd
  split
  · next hmem =>
    constructor
    · exact fun hb => Or.inl hb
    · rintro (hb | rfl) <;> [exact hb; exact hmem]
  · simp

theorem setAdd_idem (s : List Nat) (a : Nat) :
    setAdd (setAdd s a) a = setAdd s a := by
  have h : a ∈ setAdd s a := (mem_setAdd s a a).mpr (Or.inr rfl)
  have e : setAdd (setAdd s a) a
      = if a ∈ setAdd s a then setAdd s a else setAdd s a ++ [a] := rfl
  rw [e, if_pos h]

theorem count_setAdd_self {s : List Nat} (h : s.Nodup) (a : Nat) :
    (setAdd s a).count a = 1 := by
  unfold setAdd
  split
  · next hmem => exact List.count_eq_one_of_mem h hmem
  · next hmem =>
    rw [List.count_append]
    simp [List.count_eq_zero_of_not_mem hmem]

theorem notifyLoop_noRaise (v : List PyVal) (l : List Nat) :
    notifyLoop noRaise v l = (l.map fun x => (x, v), none) := by
  induction l with
  | nil => rfl
  | cons x rest ih => simp [notifyLoop, noRaise, ih]

theorem countP_events_eq_count (l : List Nat) (v : List PyVal) (a : Nat) :
    ((l.map fun x => (x, v)).countP fun e => e.1 == a) = l.count a := by
  rw [List.countP_map]
  rfl

theorem count_mem_three {a b c x : Nat} (hab : a ≠ b) (hac : a ≠ c)
    (hbc : b ≠ c) (hx : x = a ∨ x = b ∨ x = c) :
    List.count x [a, b, c] = 1 := by
  rcases hx with rfl | rfl | rfl <;>
    simp [List.count_cons, hab, hac, hbc, Ne.symm hab, Ne.symm hac, Ne.symm hbc]

/-! ## Claims -/

/-- Claim C1: for an Observable whose registry holds exactly the observers
`a`, `b`, `c` (in whatever iteration order the set yields), `notify(v)` invokes
`update` exactly once on each of them, every delivery carries the payload
`(v,)` (the full variadic tuple), and no exception escapes. -/
theorem notify_full_fanout (o : Observable) (a b c : Nat) (v : PyVal)
    (hperm : o.observers.Perm [a, b, c])
    (hab : a ≠ b) (hac : a ≠ c) (hbc : b ≠ c) :
    ((notify noRaise o [v]).2.1.countP (fun e => e.1 == a) = 1 ∧
     (notify noRaise o [v]).2.1.countP (fun e => e.1 == b) = 1 ∧
     (notify noRaise o [v]).2.1.countP (fun e => e.1 == c) = 1) ∧
    (∀ ev ∈ (notify noRaise o [v]).2.1, ev.2 = [v]) ∧
    (notify noRaise o [v]).2.2 = none := by
  have hev : (notify noRaise o [v]).2
      = (o.observers.map fun x => (x, [v]), none) := by
    simp [notify, notifyLoop_noRaise]
  rw [hev]
  refine ⟨⟨?_, ?_, ?_⟩, ?_, rfl⟩
  · rw [countP_events_eq_count, hperm.count_eq]
    exact count_mem_three hab hac hbc (Or.inl rfl)
  · rw [countP_events_eq_count, hperm.count_eq]
    exact count_mem_three hab hac hbc (Or.inr (Or.inl rfl))
  · rw [countP_events_eq_count, hperm.count_eq]
    exact count_mem_three hab hac hbc (Or.inr (Or.inr rfl))
  · intro ev hmem
    rcases List.mem_map.mp hmem with ⟨x, _, rfl⟩
    rfl

/-- Witness for C1 at the concrete registry `[1, 2, 3]` and payload `5`. -/
theorem notify_full_fanout_witness :
    (Observable.mk "NewValuePublisher" [1, 2, 3]).observers.Perm [1, 2, 3] ∧
    (1 : Nat) ≠ 2 ∧ (1 : Nat) ≠ 3 ∧ (2 : Nat) ≠ 3 ∧
    (((notify noRaise (Observable.mk "NewValuePublisher" [1, 2, 3])
        [.int 5]).2.1.countP (fun e => e.1 == 1) = 1 ∧
      ((notify noRaise (Observable.mk "NewValuePublisher" [1, 2, 3])
        [.int 5]).2.1.countP (fun e => e.1 == 2) = 1) ∧
      ((notify noRaise (Observable.mk "NewValuePublisher" [1, 2, 3])
        [.int 5]).2.1.countP (fun e => e.1 == 3) = 1)) ∧
     (∀ ev ∈ (notify noRaise (Observable.mk "NewValuePublisher" [1, 2, 3])
        [.int 5]).2.1, ev.2 = [.int 5]) ∧
     (notify noRaise (Observable.mk "NewValuePublisher" [1, 2, 3])
        [.int 5]).2.2 = none) :=
  ⟨List.Perm.refl _, by decide, by decide, by decide,
   notify_full_fanout _ 1 2 3 (.int 5) (List.Perm.refl _)
     (by decide) (by decide) (by decide)⟩

/-- Claim C2 (refuted by the code): the capability check is not structural.
`Observer.__subclasshook__` computes `any(...) != []`, a bool-versus-list
comparison that is `True` no matter what the `any` yields (and the membership
test compares the repr string of `Observer.update` against attribute-name
keys, which also never matches), so a class whose MRO defines no `update`
anywhere still passes the check — the claimed only-if direction fails. -/
theorem capability_check_accepts_class_without_update :
    subclasshook (PyClass.mk [["__init__", "__module__"], ["__doc__"]]) = true :=
  subclasshook_eq_true _

/-- Claim C3 (refuted by the code): `attach` never raises. Because the broken
capability check accepts every object, attaching an object whose class has no
`update` method succeeds and mutates the registry, instead of raising
`ValueError` and leaving the registry unchanged as documented. -/
theorem attach_accepts_object_without_update :
    attach (observableInit none "NewValuePublisher")
        (PyObject.mk 7 (PyClass.mk [["__init__"], ["__doc__"]]))
      = .ok (Observable.mk "NewValuePublisher" [7]) := by
  rw [attach_eq_ok]
  rfl

/-- Claim C4: attaching the same observer twice leaves the registry in exactly
the state one attach produces, the registry stays duplicate-free (so the
observer appears at most once), and a subsequent `notify` delivers to that
observer exactly once. -/
theorem attach_idempotent (o : Observable) (x : PyObject) (v : PyVal)
    (hnd : o.observers.Nodup) :
    (attach o x).bind (fun o1 => attach o1 x) = attach o x ∧
    ∀ o1, attach o x = .ok o1 →
      o1.observers.Nodup ∧
      (notify noRaise o1 [v]).2.1.countP (fun e => e.1 == x.id) = 1 := by
  have h1 := attach_eq_ok o x
  constructor
  · rw [h1]
    show attach { o with observers := setAdd o.observers x.id } x
        = Except.ok { o with observers := setAdd o.observers x.id }
    rw [attach_eq_ok]
    simp [setAdd_idem]
  · intro o1 ho1
    rw [h1] at ho1
    injection ho1 with h2
    subst h2
    refine ⟨setAdd_nodup hnd x.id, ?_⟩
    have hev : (notify noRaise { o with observers := setAdd o.observers x.id }
          [v]).2.1
        = (setAdd o.observers x.id).map fun y => (y, [v]) := by
      simp [notify, notifyLoop_noRaise]
    rw [hev, countP_events_eq_count]
    exact count_setAdd_self hnd x.id

/-- Witness for C4: attaching observer 2 to a registry already holding 1 and 2. -/
theorem attach_idempotent_witness :
    (Observable.mk "NewValuePublisher" [1, 2]).observers.Nodup ∧
    ((attach (Observable.mk "NewValuePublisher" [1, 2])
          (PyObject.mk 2 (PyClass.mk [["update"], []]))).bind
        (fun o1 => attach o1 (PyObject.mk 2 (PyClass.mk [["update"], []])))
      = attach (Observable.mk "NewValuePublisher" [1, 2])
          (PyObject.mk 2 (PyClass.mk [["update"], []])) ∧
     ∀ o1, attach (Observable.mk "NewValuePublisher" [1, 2])
          (PyObject.mk 2 (PyClass.mk [["update"], []])) = .ok o1 →
       o1.observers.Nodup ∧
       (notify noRaise o1 [.int 6]).2.1.countP
          (fun e => e.1 == (PyObject.mk 2 (PyClass.mk [["update"], []])).id) = 1) :=
  ⟨by decide,
   attach_idempotent (Observable.mk "NewValuePublisher" [1, 2])
     (PyObject.mk 2 (PyClass.mk [["update"], []])) (.int 6) (by decide)⟩

/-- Numeric value of a decimal digit character. -/
def decVal (c : Char) : Nat := c.toNat - 48

/-- Parse a decimal digit list back to the number it denotes. -/
def decParse (l : List Char) : Nat :=
  l.foldl (fun acc c => acc * 10 + decVal c) 0

theorem digitChar_toNat : ∀ d < 10, (digitChar d).toNat = 48 + d := by decide

theorem decParse_decDigits (n : Nat) : decParse (decDigits n) = n := by
  induction n using Nat.strong_induction_on with
  | _ n ih =>
    rw [decDigits]
    split
    · next h =>
      have hc := digitChar_toNat n h
      simp [decParse, decVal, hc]
    · next h =>
      have hdiv : n / 10 < n := Nat.div_lt_self (by omega) (by omega)
      have hmod := digitChar_toNat (n % 10) (Nat.mod_lt n (by omega))
      have ihd := ih (n / 10) hdiv
      unfold decParse at ihd ⊢
      rw [List.foldl_append, ihd]
      simp [decVal, hmod]
      omega

theorem pyStr_injective {a b : Nat} (h : pyStr a = pyStr b) : a = b := by
  have hdata : decDigits a = decDigits b := by
    have := congrArg String.data h
    simpa [pyStr] using this
  have := congrArg decParse hdata
  simpa [decParse_decDigits] using this

/-- Claim C5 counterexample: the claim quantifies over every `Observer` in the
repository, but the root module `src/observer.py` has no counter — two unnamed
observers of the same concrete class constructed one after the other both get
the bare class name, so their names are NOT distinct. -/
theorem root_unnamed_names_not_distinct :
    rootConstructAll
        [(none, "NewValueSubscriber"), (none, "NewValueSubscriber")]
      = ["NewValueSubscriber", "NewValueSubscriber"] ∧
    ¬ List.Pairwise (fun a b => a ≠ b)
        (rootConstructAll
          [(none, "NewValueSubscriber"), (none, "NewValueSubscriber")]) := by
  refine ⟨rfl, ?_⟩
  intro hp
  have h1 : "NewValueSubscriber" ∈ ["NewValueSubscriber"] := by simp
  exact (List.pairwise_cons.mp hp).1 _ h1 rfl

/-- Claim C5 amended: in the packaged module `src/observer/observer.py`, an
Observer constructed without a (truthy) name is named from its concrete class
name plus the process-wide counter, so two unnamed observers of the same
concrete class constructed one after the other always get distinct names. -/
theorem unnamed_observer_names_distinct (cls : String) (c : Nat) :
    (observerInit none cls c).1
      ≠ (observerInit none cls (observerInit none cls c).2).1 := by
  simp only [observerInit, pyTruthy, Bool.false_eq_true, if_false]
  intro h
  have hd := congrArg String.data h
  rw [String.data_append, String.data_append] at hd
  have h2 : (pyStr c).data = (pyStr (c + 1)).data := List.append_cancel_left hd
  have h3 : pyStr c = pyStr (c + 1) := by
    cases hs : pyStr c
    cases ht : pyStr (c + 1)
    rw [hs, ht] at h2
    exact congrArg String.mk (by simpa using h2)
  have := pyStr_injective h3
  omega

theorem notifyLoop_prefix_error (upd : Nat → List PyVal → Option String)
    (v : List PyVal) (pre post : List Nat) (x : Nat) (e : String)
    (hpre : ∀ y ∈ pre, upd y v = none) (hx : upd x v = some e) :
    notifyLoop upd v (pre ++ x :: post)
      = ((pre.map fun y => (y, v)) ++ [(x, v)], some e) := by
  induction pre with
  | nil => simp [notifyLoop, hx]
  | cons y ys ih =>
    have hy : upd y v = none := hpre y (by simp)
    have ih2 := ih fun z hz => hpre z (by simp [hz])
    simp [notifyLoop, hy, ih2]

/-- Claim C6: an exception raised by an observer's `update` during `notify` is
not caught, wrapped or retried: it propagates unchanged to the caller of
`notify`; deliveries already made are kept (no rollback) and the observers the
loop had not yet reached receive no `update` call. -/
theorem update_error_propagates (upd : Nat → List PyVal → Option String)
    (o : Observable) (v : List PyVal) (pre post : List Nat) (x : Nat)
    (e : String)
    (hobs : o.observers = pre ++ x :: post)
    (hnd : o.observers.Nodup)
    (hpre : ∀ y ∈ pre, upd y v = none)
    (hx : upd x v = some e) :
    (notify upd o v).2.2 = some e ∧
    (notify upd o v).2.1 = (pre.map fun y => (y, v)) ++ [(x, v)] ∧
    ∀ z ∈ post, ∀ ev ∈ (notify upd o v).2.1, ev.1 ≠ z := by
  have hloop : (notify upd o v).2
      = ((pre.map fun y => (y, v)) ++ [(x, v)], some e) := by
    show notifyLoop upd v o.observers = _
    rw [hobs]
    exact notifyLoop_prefix_error upd v pre post x e hpre hx
  rw [hloop]
  refine ⟨rfl, rfl, ?_⟩
  rw [hobs] at hnd
  have hsplit := List.nodup_append.mp hnd
  intro z hz ev hev h
  subst h
  rcases List.mem_append.mp hev with hl | hr
  · rcases List.mem_map.mp hl with ⟨y, hy, hyev⟩
    have hy1 : y = ev.1 := congrArg Prod.fst hyev
    have hmem : y ∈ x :: post := by
      rw [hy1]
      exact List.mem_cons_of_mem x hz
    exact hsplit.2.2 hy hmem
  · have : ev.1 = x := by
      rcases List.mem_singleton.mp hr with rfl
      rfl
    rw [this] at hz
    exact (List.nodup_cons.mp hsplit.2.1).1 hz

/-- Witness for C6: registry `[1, 2, 3]`, observer 2 raising the string
exception while 1 succeeds; 3 is never reached. -/
theorem update_error_propagates_witness :
    (Observable.mk "NewValuePublisher" [1, 2, 3]).observers = [1] ++ 2 :: [3] ∧
    (Observable.mk "NewValuePublisher" [1, 2, 3]).observers.Nodup ∧
    (∀ y ∈ [1], (fun y (_ : List PyVal) =>
        if y == 2 then some "boom" else none) y [PyVal.int 7] = none) ∧
    (fun y (_ : List PyVal) => if y == 2 then some "boom" else none) 2
        [PyVal.int 7] = some "boom" ∧
    ((notify (fun y (_ : List PyVal) => if y == 2 then some "boom" else none)
        (Observable.mk "NewValuePublisher" [1, 2, 3]) [PyVal.int 7]).2.2
      = some "boom" ∧
     (notify (fun y (_ : List PyVal) => if y == 2 then some "boom" else none)
        (Observable.mk "NewValuePublisher" [1, 2, 3]) [PyVal.int 7]).2.1
      = (([1] : List Nat).map fun y => (y, [PyVal.int 7])) ++ [(2, [PyVal.int 7])] ∧
     ∀ z ∈ [3], ∀ ev ∈ (notify
        (fun y (_ : List PyVal) => if y == 2 then some "boom" else none)
        (Observable.mk "NewValuePublisher" [1, 2, 3]) [PyVal.int 7]).2.1,
       ev.1 ≠ z) :=
  ⟨rfl, by decide, by decide, rfl,
   update_error_propagates
     (fun y (_ : List PyVal) => if y == 2 then some "boom" else none)
     (Observable.mk "NewValuePublisher" [1, 2, 3]) [PyVal.int 7]
     [1] [3] 2 "boom" rfl (by decide) (by decide) rfl⟩

/-- Claim C7: detaching an observer that is not registered is a no-op — the
function is total (the `if observer in self._observers` guard means nothing is
raised and nothing happens) and the observable is left exactly unchanged. -/
theorem detach_unregistered_noop (o : Observable) (x : PyObject)
    (h : x.id ∉ o.observers) : detach o x = o := by
  simp [detach, h]

/-- Witness for C7: detaching the never-attached observer 4 from `[1, 2]`. -/
theorem detach_unregistered_noop_witness :
    (PyObject.mk 4 (PyClass.mk [["update"], []])).id
      ∉ (Observable.mk "NewValuePublisher" [1, 2]).observers ∧
    detach (Observable.mk "NewValuePublisher" [1, 2])
        (PyObject.mk 4 (PyClass.mk [["update"], []]))
      = Observable.mk "NewValuePublisher" [1, 2] :=
  ⟨by decide,
   detach_unregistered_noop (Observable.mk "NewValuePublisher" [1, 2])
     (PyObject.mk 4 (PyClass.mk [["update"], []])) (by decide)⟩

/-- Claim C8: with exactly `a`, `b`, `c` registered, after `detach(b)` a
subsequent `notify(v2)` still invokes `update` exactly once on `a` and on `c`
but never on `b` — detach removes exactly the given observer from the delivery
set. -/
theorem post_detach_isolation (o : Observable) (a b c : Nat) (xb : PyObject)
    (v : PyVal) (hid : xb.id = b)
    (hperm : o.observers.Perm [a, b, c])
    (hab : a ≠ b) (hac : a ≠ c) (hbc : b ≠ c) :
    (notify noRaise (detach o xb) [v]).2.1.countP (fun e => e.1 == a) = 1 ∧
    (notify noRaise (detach o xb) [v]).2.1.countP (fun e => e.1 == c) = 1 ∧
    ∀ ev ∈ (notify noRaise (detach o xb) [v]).2.1, ev.1 ≠ b := by
  have hbmem : b ∈ o.observers := hperm.mem_iff.mpr (by simp)
  have hdet : (detach o xb).observers = o.observers.erase b := by
    simp [detach, hid, hbmem]
  have hpe : (o.observers.erase b).Perm ([a, b, c].erase b) := hperm.erase b
  have herase : [a, b, c].erase b = [a, c] := by
    rw [List.erase_cons_tail, List.erase_cons_head]
    simp [hab]
  rw [herase] at hpe
  have hev : (notify noRaise (detach o xb) [v]).2.1
      = (o.observers.erase b).map fun y => (y, [v]) := by
    simp [notify, notifyLoop_noRaise, hdet]
  rw [hev]
  refine ⟨?_, ?_, ?_⟩
  · rw [countP_events_eq_count, hpe.count_eq]
    simp [List.count_cons, hac]
  · rw [countP_events_eq_count, hpe.count_eq]
    simp [List.count_cons, Ne.symm hac]
  · intro ev hmem
    rcases List.mem_map.mp hmem with ⟨y, hy, hyev⟩
    have hy1 : y = ev.1 := congrArg Prod.fst hyev
    intro hb
    rw [hy1, hb] at hy
    have : b ∈ [a, c] := hpe.mem_iff.mp hy
    rcases List.mem_cons.mp this with h1 | h1
    · exact hab h1.symm
    · rcases List.mem_singleton.mp h1 with rfl
      exact hbc rfl

/-- Witness for C8: registry `[1, 2, 3]`, detaching observer 2. -/
theorem post_detach_isolation_witness :
    (PyObject.mk 2 (PyClass.mk [["update"], []])).id = 2 ∧
    (Observable.mk "NewValuePublisher" [1, 2, 3]).observers.Perm [1, 2, 3] ∧
    (1 : Nat) ≠ 2 ∧ (1 : Nat) ≠ 3 ∧ (2 : Nat) ≠ 3 ∧
    ((notify noRaise (detach (Observable.mk "NewValuePublisher" [1, 2, 3])
        (PyObject.mk 2 (PyClass.mk [["update"], []]))) [.int 6]).2.1.countP
        (fun e => e.1 == 1) = 1 ∧
     (notify noRaise (detach (Observable.mk "NewValuePublisher" [1, 2, 3])
        (PyObject.mk 2 (PyClass.mk [["update"], []]))) [.int 6]).2.1.countP
        (fun e => e.1 == 3) = 1 ∧
     ∀ ev ∈ (notify noRaise (detach (Observable.mk "NewValuePublisher" [1, 2, 3])
        (PyObject.mk 2 (PyClass.mk [["update"], []]))) [.int 6]).2.1,
       ev.1 ≠ 2) :=
  ⟨rfl, List.Perm.refl _, by decide, by decide, by decide,
   post_detach_isolation (Observable.mk "NewValuePublisher" [1, 2, 3]) 1 2 3
     (PyObject.mk 2 (PyClass.mk [["update"], []])) (.int 6) rfl
     (List.Perm.refl _) (by decide) (by decide) (by decide)⟩

/-- Claim C9: `notify` is registry- and name-preserving — the loop body only
calls `observer.update(new_state)` and never assigns to `self._observers` or
`self.name` (the model's update environment has no access to the observable,
matching the claim's proviso that updates do not reenter attach or detach). -/
theorem notify_preserves_registry_and_name
    (upd : Nat → List PyVal → Option String) (o : Observable)
    (v : List PyVal) :
    (notify upd o v).1.observers = o.observers ∧
    (notify upd o v).1.name = o.name :=
  ⟨rfl, rfl⟩

theorem constructAll_fst (c : Nat) (l : List (Option String × String)) :
    (constructAll c l).1 = c + l.length := by
  induction l generalizing c with
  | nil => simp [constructAll]
  | cons p rest ih =>
    cases p with
    | mk nm cls =>
      show (constructAll (c + 1) rest).1 = c + (rest.length + 1)
      rw [ih]
      omega

/-- Claim C10: every `Observer.__init__` call in the packaged module bumps the
class-level counter by exactly one — also when an explicit name is supplied;
after any construction sequence from process start the `object_counter`
property reports the total number of instances constructed; and the counter
never decreases along any construction sequence. -/
theorem object_counter_counts_constructions :
    (∀ nm cls cnt, (observerInit nm cls cnt).2 = cnt + 1) ∧
    (∀ l, object_counter (constructAll 0 l).1 = l.length) ∧
    (∀ cnt l, cnt ≤ (constructAll cnt l).1) := by
  refine ⟨fun nm cls cnt => rfl, fun l => ?_, fun cnt l => ?_⟩
  · rw [object_counter, constructAll_fst]
    omega
  · rw [constructAll_fst]
    omega
